import Mathlib

/-!
Shallow embedding of the health-security scan pipeline:
`healthTool.execute` (sanitize the repository URL, parse the GitHub
reference, fetch `package.json` with a 504-retry loop, query the OSV
vulnerability database per dependency with a 429-retry loop, capped at 10
dependencies) followed by the `explainVulnerabilities` report step of the
workflow. Network effects are modelled by explicit response environments
(attempt-indexed functions); the model additionally records the attempts
made and the delays requested, so that claims about retry counts and about
"zero network calls" can be stated.
-/

namespace HealthSecure

/-- One dependency finding, mirroring the tool's output schema
`{package, version, cves, summary}`. -/
structure Finding where
  package : String
  version : String
  cves : List String
  summary : String
deriving DecidableEq

/-- One OSV vulnerability record as consumed by the tool: `id` is always
present, `summary` is optional (`vulns[0]?.summary` may be `undefined`). -/
structure Vuln where
  id : String
  summary : Option String
deriving DecidableEq

/-- The parsed `package.json` body: the two dependency maps, each modelled
as an association list in object-key insertion order (keys distinct within
one map, as in a parsed JSON object). -/
structure Manifest where
  dependencies : List (String × String)
  devDependencies : List (String × String)
deriving DecidableEq

/-- Outcome of one `axios.get` of the raw `package.json` URL.
`success none` models a fetch whose `res.data` is falsy (empty body), so
that the post-loop `if (!json)` check is represented; `failure status msg`
models a thrown error, carrying `error.response?.status` (none for network
errors or non-Axios errors) and the string `getErrorMessage` resolves. -/
inductive FetchResp where
  | success (data : Option Manifest)
  | failure (status : Option Nat) (msg : String)
deriving DecidableEq

/-- Outcome of one `axios.post` to the OSV query endpoint. `success vulns`
carries `osvRes.data.vulns || []` (an absent field is the empty list);
`failure` as in `FetchResp`. -/
inductive OsvResp where
  | success (vulns : List Vuln)
  | failure (status : Option Nat) (msg : String)
deriving DecidableEq

/-- JS string-or-default: `x || d` where `x : string | undefined`;
the empty string is falsy. -/
def jsOrString (x : Option String) (d : String) : String :=
  match x with
  | some s => if s == "" then d else s
  | none => d

/-- Does the pattern list occur as a prefix of the second list? -/
def startsWithList : List Char → List Char → Bool
  | [], _ => true
  | _ :: _, [] => false
  | p :: ps, c :: cs => p == c && startsWithList ps cs

/-- The characters deleted by `sanitizeInput`: the class `[<>{}\[\];]`. -/
def isStrippedChar (c : Char) : Bool :=
  c == '<' || c == '>' || c == Char.ofNat 123 || c == Char.ofNat 125 ||
  c == '[' || c == ']' || c == ';'

/-- Drop a final ".3js" once, as the regex replace of `\.3js$` does. -/
def strip3jsSuffix (l : List Char) : List Char :=
  if startsWithList "sj3.".toList l.reverse then (l.reverse.drop 4).reverse
  else l

/-- `sanitizeInput`: delete every occurrence of `< > \x7b \x7d [ ] ;`,
then delete a trailing ".3js" if present. -/
def sanitizeInput (s : String) : String :=
  (strip3jsSuffix (s.toList.filter (fun c => !(isStrippedChar c)))).asString

/-- The tool appends "/" when the sanitized URL does not already end
with one. -/
def adjustSlash (s : String) : String :=
  match s.toList.reverse with
  | '/' :: _ => s
  | _ => s ++ "/"

/-- Match the regex tail after a literal "github.com/":
`([^/]+)\/([^/]+)(?:\/([^/]+))?(\/|$)`. The character classes are
greedy but forced (each run is followed by a literal `/` or the
alternation), so maximal-munch is the regex's behaviour. -/
def tailMatch (l : List Char) : Option (String × String × Option String) :=
  match l.takeWhile (fun c => c != '/'), l.dropWhile (fun c => c != '/') with
  | [], _ => none
  | owner, '/' :: r2 =>
    match r2.takeWhile (fun c => c != '/'), r2.dropWhile (fun c => c != '/') with
    | [], _ => none
    | repo, '/' :: r4 =>
      match r4.takeWhile (fun c => c != '/') with
      | [] => some (owner.asString, repo.asString, none)
      | b => some (owner.asString, repo.asString, some b.asString)
    | repo, [] => some (owner.asString, repo.asString, none)
    | _, _ => none
  | _, _ => none

/-- The literal head of the repo-URL regex. -/
def ghMarker : List Char := "github.com/".toList

/-- `repoUrl.match(/github\.com\/([^/]+)\/([^/]+)(?:\/([^/]+))?(\/|$)/)`:
try every occurrence of "github.com/" left to right and return the first
position where the tail matches, as a JS regex engine does. -/
def findGitHubMatch : List Char → Option (String × String × Option String)
  | [] => none
  | c :: rest =>
    if startsWithList ghMarker (c :: rest) then
      match tailMatch ((c :: rest).drop ghMarker.length) with
      | some r => some r
      | none => findGitHubMatch rest
    else findGitHubMatch rest

/-- Remove the first occurrence of a character, as the JS string
`replace` with a plain one-character pattern does. -/
def removeFirstChar (c : Char) : List Char → List Char
  | [] => []
  | x :: xs => if x == c then xs else x :: removeFirstChar c xs

/-- `String(versionRaw).replace("^", "").replace("~", "")`: first the
first "^" occurrence is removed, then the first "~" occurrence of the
result. -/
def normalizeVersion (v : String) : String :=
  (removeFirstChar '~' (removeFirstChar '^' v.toList)).asString

/-- First-occurrence lookup in an association list (a JS object keyed
access). -/
def lookupVal (l : List (String × String)) (k : String) : Option String :=
  match l with
  | [] => none
  | (a, v) :: rest => if a == k then some v else lookupVal rest k

/-- The object spread `{...a, ...b}` for objects with distinct keys per
object: the keys of `a` in order (values overridden by `b` where the key
recurs), then the keys of `b` not in `a`, in order. -/
def jsSpread (a b : List (String × String)) : List (String × String) :=
  a.map (fun p =>
    match lookupVal b p.1 with
    | some v => (p.1, v)
    | none => p) ++
  b.filter (fun p => (lookupVal a p.1).isNone)

/-- Result of the manifest-fetch loop. -/
inductive FetchOut where
  | ok (m : Manifest)
  | err (e : String)
deriving DecidableEq

/-- Trace of the manifest-fetch loop: its result, how many GET attempts
were issued, and the list of delays (ms) requested between attempts. -/
structure FetchTrace where
  result : FetchOut
  attempts : Nat
  delays : List Nat
deriving DecidableEq

/-- The `while (retries > 0)` fetch loop of the tool, with `retries + 1`
here playing the code's `retries` role. On a 504 with retries left it
waits 2000 ms and retries; on any other failure it returns the
fetch-failed message immediately; a falsy body, or loop exit with no
body, yields the after-retries message. -/
def fetchManifestLoop (resp : Nat → FetchResp) : Nat → Nat → FetchTrace
  | attempt, 0 => ⟨.err "Failed to fetch package.json after retries", attempt, []⟩
  | attempt, retries + 1 =>
    match resp attempt with
    | .success (some m) => ⟨.ok m, attempt + 1, []⟩
    | .success none =>
      ⟨.err "Failed to fetch package.json after retries", attempt + 1, []⟩
    | .failure status msg =>
      if 0 < retries ∧ status = some 504 then
        let t := fetchManifestLoop resp (attempt + 1) retries
        ⟨t.result, t.attempts, 2000 :: t.delays⟩
      else ⟨.err ("Failed to fetch package.json: " ++ msg), attempt + 1, []⟩

/-- `vulns[0]?.summary`. -/
def headSummary : List Vuln → Option String
  | [] => none
  | v :: _ => v.summary

/-- Trace of one dependency's OSV retry loop: the optional finding and
the number of POST attempts issued for that dependency. -/
structure OsvTrace where
  finding : Option Finding
  attempts : Nat
deriving DecidableEq

/-- The per-dependency OSV `while (retries > 0)` loop, `retries + 1`
playing the code's `retries`. A successful response breaks out of the
loop, producing a finding exactly when the match list is nonempty, with
the full id list and `vulns[0]?.summary || "No summary"`; a 429 with
retries left waits and retries; any other failure breaks out with no
finding. -/
def osvLookup (resp : Nat → OsvResp) (pkg version : String) : Nat → Nat → OsvTrace
  | attempt, 0 => ⟨none, attempt⟩
  | attempt, retries + 1 =>
    match resp attempt with
    | .success vulns =>
      if 0 < vulns.length then
        ⟨some ⟨pkg, version, vulns.map (fun v => v.id),
          jsOrString (headSummary vulns) "No summary"⟩, attempt + 1⟩
      else ⟨none, attempt + 1⟩
    | .failure status _ =>
      if status = some 429 ∧ 0 < retries then
        osvLookup resp pkg version (attempt + 1) retries
      else ⟨none, attempt + 1⟩

/-- Trace of the dependency loop: the accumulated findings and, per
dependency queried, its name, normalized version and attempt count. -/
structure DepScanTrace where
  findings : List Finding
  queried : List (String × String × Nat)
deriving DecidableEq

/-- The `for (const [pkg, versionRaw] of limitedDeps)` loop: each entry
is normalized and looked up with 3 units of retry fuel; a produced
finding is appended, a failed or clean entry contributes nothing. The
OSV response environment takes package, normalized version and attempt
index. -/
def scanDeps (osv : String → String → Nat → OsvResp) :
    List (String × String) → DepScanTrace
  | [] => ⟨[], []⟩
  | (pkg, vraw) :: rest =>
    let version := normalizeVersion vraw
    let t := osvLookup (osv pkg version) pkg version 0 3
    let restT := scanDeps osv rest
    ⟨(match t.finding with
      | some f => f :: restT.findings
      | none => restT.findings),
     (pkg, version, t.attempts) :: restT.queried⟩

/-- Full trace of `healthTool.execute`: the returned `{findings, error}`
plus the parsed repository reference (owner, repo, branch defaulted to
"main") and the network activity (manifest GET attempts and delays, OSV
queries per dependency). -/
structure ExecResult where
  findings : List Finding
  error : Option String
  repoRef : Option (String × String × String)
  manifestAttempts : Nat
  manifestDelays : List Nat
  queried : List (String × String × Nat)
deriving DecidableEq

/-- `healthTool.execute`: the falsy-`repoUrl` guard, sanitization, the
trailing-slash adjustment, the GitHub regex match (failure returns the
"Invalid GitHub repo URL" error with no network call), the manifest
fetch loop, the merged dependency map with its emptiness check, the cap
to the first 10 entries, the dependency loop, and the final result whose
error slot is the sentinel "No vulnerabilities found" exactly when the
findings list is empty. -/
def healthToolExecute (fetch : Nat → FetchResp)
    (osv : String → String → Nat → OsvResp) (repoUrl : String) : ExecResult :=
  if repoUrl = "" then
    ⟨[], some "Missing or invalid repoUrl in input data", none, 0, [], []⟩
  else
    let url := adjustSlash (sanitizeInput repoUrl)
    match findGitHubMatch url.toList with
    | none => ⟨[], some ("Invalid GitHub repo URL: " ++ url), none, 0, [], []⟩
    | some (owner, repo, branchOpt) =>
      let branch := branchOpt.getD "main"
      let ft := fetchManifestLoop fetch 0 3
      match ft.result with
      | .err e => ⟨[], some e, some (owner, repo, branch), ft.attempts, ft.delays, []⟩
      | .ok m =>
        let deps := jsSpread m.dependencies m.devDependencies
        if deps.length = 0 then
          ⟨[], some "No dependencies found in package.json",
            some (owner, repo, branch), ft.attempts, ft.delays, []⟩
        else
          let t := scanDeps osv (deps.take 10)
          ⟨t.findings,
            (if t.findings.length = 0 then some "No vulnerabilities found" else none),
            some (owner, repo, branch), ft.attempts, ft.delays, t.queried⟩

/-- The scan step's output schema `{findings, error?}`. -/
structure ScanResult where
  findings : List Finding
  error : Option String
deriving DecidableEq

/-- Outcome of the `explainVulnerabilities` step: either the fixed error
diagnostic, or an invocation of the narrator agent on the findings (the
narrated text itself is produced by the external language model and is
not modelled). -/
inductive ReportOutcome where
  | errorReport (text : String)
  | narrated (findings : List Finding)
deriving DecidableEq

/-- JS truthiness of `string | undefined`: absent and the empty string
are falsy. -/
def jsTruthy : Option String → Bool
  | none => false
  | some s => s != ""

/-- The `explainVulnerabilities` step: `if (inputData.error)` selects the
fixed diagnostic by JS truthiness; otherwise the narrator is invoked on
the findings. -/
def explainVulnerabilities (input : ScanResult) : ReportOutcome :=
  if jsTruthy input.error then
    .errorReport ("Error occurred: " ++ jsOrString input.error "" ++
      ". Please verify the repository URL or ensure package.json exists.")
  else
    .narrated input.findings

/-- The `scanRepo` step: its own falsy-`repoUrl` guard, then the tool. -/
def scanRepo (fetch : Nat → FetchResp) (osv : String → String → Nat → OsvResp)
    (repoUrl : String) : ScanResult :=
  if repoUrl = "" then ⟨[], some "Missing repoUrl in input data"⟩
  else
    let r := healthToolExecute fetch osv repoUrl
    ⟨r.findings, r.error⟩

/-- The workflow `scanRepo` then `explainVulnerabilities`. -/
def healthWorkflow (fetch : Nat → FetchResp)
    (osv : String → String → Nat → OsvResp) (repoUrl : String) : ReportOutcome :=
  explainVulnerabilities (scanRepo fetch osv repoUrl)

/-- The dependency loop queries exactly the entries of its input list, in
order, each under its normalized version. -/
theorem scanDeps_queried (osv : String → String → Nat → OsvResp)
    (l : List (String × String)) :
    (scanDeps osv l).queried =
      l.map (fun p => (p.1, normalizeVersion p.2,
        (osvLookup (osv p.1 (normalizeVersion p.2)) p.1 (normalizeVersion p.2)
          0 3).attempts)) := by
  induction l with
  | nil => rfl
  | cons hd tl ih =>
    obtain ⟨pkg, vraw⟩ := hd
    simp [scanDeps, ih]

/-- Each dependency contributes at most one finding. -/
theorem scanDeps_findings_le (osv : String → String → Nat → OsvResp)
    (l : List (String × String)) :
    (scanDeps osv l).findings.length ≤ l.length := by
  induction l with
  | nil => simp [scanDeps]
  | cons hd tl ih =>
    obtain ⟨pkg, vraw⟩ := hd
    simp only [scanDeps]
    cases (osvLookup (osv pkg (normalizeVersion vraw)) pkg (normalizeVersion vraw)
        0 3).finding with
    | some f => simpa using ih
    | none => simp; omega

/-- A string starting from a nonempty one by appending is nonempty. -/
theorem append_left_ne_empty (s t : String) (h : s ≠ "") : s ++ t ≠ "" := by
  intro heq
  apply h
  have hlen := congrArg String.length heq
  rw [String.length_append] at hlen
  have hz : s.length = 0 := by
    have : String.length "" = 0 := rfl
    omega
  cases s with
  | mk data =>
    cases data with
    | nil => rfl
    | cons c cs => simp [String.length] at hz

/-- C1: the code contradicts the claimed healthy-path scenario. For the
repository whose manifest is exactly `\x7b"left-pad": "^1.3.0"\x7d` and
whose OSV queries all return zero matches, the scan stage fills the error
slot with the sentinel "No vulnerabilities found", so the report stage
short-circuits to the fixed error diagnostic and the narrator's
healthy-path instruction is never reached. -/
theorem c1_healthy_repo_report_eval :
    healthWorkflow (fun _ => .success (some ⟨[("left-pad", "^1.3.0")], []⟩))
      (fun _ _ _ => .success []) "https://github.com/acme/demo" =
      .errorReport "Error occurred: No vulnerabilities found. Please verify the repository URL or ensure package.json exists." := by
  rfl

/-- C2 counterexample: when every manifest-fetch attempt fails with
status 504, the loop makes 3 attempts and then surfaces the fetch-failed
error carrying the underlying message, not the generic retries-exhausted
error the claim names. -/
theorem c2_fetch_retry_counterexample :
    (fetchManifestLoop (fun _ => .failure (some 504) "Request failed with status code 504") 0 3).attempts = 3 ∧
    (fetchManifestLoop (fun _ => .failure (some 504) "Request failed with status code 504") 0 3).delays = [2000, 2000] ∧
    (fetchManifestLoop (fun _ => .failure (some 504) "Request failed with status code 504") 0 3).result =
      .err "Failed to fetch package.json: Request failed with status code 504" ∧
    (fetchManifestLoop (fun _ => .failure (some 504) "Request failed with status code 504") 0 3).result ≠
      .err "Failed to fetch package.json after retries" := by
  exact ⟨rfl, rfl, rfl, by decide⟩

/-- C2 (amended): a 504 on every attempt triggers exactly 2 retries
(3 total attempts, 2000 ms delay between attempts) and surfaces the
fetch-failed error carrying the final underlying message; a non-504
failure on any attempt triggers no further retry and returns the
fetch-failed error with the underlying message immediately. -/
theorem c2_fetch_retry_policy :
    (∀ (resp : Nat → FetchResp) (m0 m1 m2 : String) (s2 : Option Nat),
      resp 0 = .failure (some 504) m0 →
      resp 1 = .failure (some 504) m1 →
      resp 2 = .failure s2 m2 →
      fetchManifestLoop resp 0 3 =
        ⟨.err ("Failed to fetch package.json: " ++ m2), 3, [2000, 2000]⟩) ∧
    (∀ (resp : Nat → FetchResp) (st : Option Nat) (ms : String),
      st ≠ some 504 → resp 0 = .failure st ms →
      fetchManifestLoop resp 0 3 =
        ⟨.err ("Failed to fetch package.json: " ++ ms), 1, []⟩) ∧
    (∀ (resp : Nat → FetchResp) (m0 : String) (st : Option Nat) (ms : String),
      resp 0 = .failure (some 504) m0 →
      st ≠ some 504 → resp 1 = .failure st ms →
      fetchManifestLoop resp 0 3 =
        ⟨.err ("Failed to fetch package.json: " ++ ms), 2, [2000]⟩) := by
  refine ⟨?_, ?_, ?_⟩
  · intro resp m0 m1 m2 s2 h0 h1 h2
    simp [fetchManifestLoop, h0, h1, h2]
  · intro resp st ms hst h0
    simp [fetchManifestLoop, h0, hst]
  · intro resp m0 st ms h0 hst h1
    simp [fetchManifestLoop, h0, h1, hst]

/-- C2 witness: the retry policy theorem applied to the all-504
environment and to an immediate-404 environment. -/
theorem c2_fetch_retry_policy_witness :
    fetchManifestLoop (fun _ => .failure (some 504) "gw") 0 3 =
      ⟨.err ("Failed to fetch package.json: " ++ "gw"), 3, [2000, 2000]⟩ ∧
    fetchManifestLoop (fun _ => .failure (some 404) "nf") 0 3 =
      ⟨.err ("Failed to fetch package.json: " ++ "nf"), 1, []⟩ :=
  ⟨c2_fetch_retry_policy.1 _ "gw" "gw" "gw" (some 504) rfl rfl rfl,
   c2_fetch_retry_policy.2.1 _ (some 404) "nf" (by decide) rfl⟩

/-- C4: a repository URL whose sanitized, slash-adjusted form does not
match the GitHub owner/repo regex makes the tool return empty findings
and the "Invalid GitHub repo URL" error immediately, with zero manifest
fetch attempts and zero vulnerability queries. -/
theorem c4_invalid_url_no_network :
    ∀ (fetch : Nat → FetchResp) (osv : String → String → Nat → OsvResp)
      (url : String),
      url ≠ "" →
      findGitHubMatch (adjustSlash (sanitizeInput url)).toList = none →
      healthToolExecute fetch osv url =
        ⟨[], some ("Invalid GitHub repo URL: " ++ adjustSlash (sanitizeInput url)),
          none, 0, [], []⟩ := by
  intro fetch osv url hne hm
  simp only [String.toList] at hm
  simp [healthToolExecute, hne, hm]

/-- C4 witness: a non-GitHub URL is rejected with no network call. -/
theorem c4_invalid_url_no_network_witness :
    "https://example.com/a" ≠ "" ∧
    findGitHubMatch (adjustSlash (sanitizeInput "https://example.com/a")).toList = none ∧
    healthToolExecute (fun _ => .failure none "net") (fun _ _ _ => .success [])
        "https://example.com/a" =
      ⟨[], some ("Invalid GitHub repo URL: " ++ adjustSlash (sanitizeInput "https://example.com/a")),
        none, 0, [], []⟩ :=
  ⟨by decide, by decide,
   c4_invalid_url_no_network _ _ _ (by decide) (by decide)⟩

/-- C3 counterexample: a ScanResult whose error field is populated with
the empty string is falsy under the step's `if (inputData.error)` test,
so the narrator is invoked rather than the fixed diagnostic. -/
theorem c3_empty_error_counterexample :
    (ScanResult.mk [] (some "")).error.isSome = true ∧
    explainVulnerabilities ⟨[], some ""⟩ = .narrated [] :=
  ⟨rfl, rfl⟩

/-- C3 (amended): for every ScanResult whose error slot holds a nonempty
string, the report step returns the fixed diagnostic referencing that
error and never reaches the narrator; in particular a 404 on the manifest
fetch makes the whole workflow return the diagnostic referencing
"Failed to fetch package.json". -/
theorem c3_error_short_circuit :
    (∀ (fs : List Finding) (e : String), e ≠ "" →
      explainVulnerabilities ⟨fs, some e⟩ =
        .errorReport ("Error occurred: " ++ e ++
          ". Please verify the repository URL or ensure package.json exists.")) ∧
    (∀ (fetch : Nat → FetchResp) (osv : String → String → Nat → OsvResp)
      (msg : String),
      fetch 0 = .failure (some 404) msg →
      healthWorkflow fetch osv "https://github.com/acme/demo" =
        .errorReport ("Error occurred: " ++ ("Failed to fetch package.json: " ++ msg) ++
          ". Please verify the repository URL or ensure package.json exists.")) := by
  constructor
  · intro fs e he
    simp [explainVulnerabilities, jsTruthy, jsOrString, he]
  · intro fetch osv msg h0
    have hm : findGitHubMatch
        (adjustSlash (sanitizeInput "https://github.com/acme/demo")).data =
        some ("acme", "demo", none) := by decide
    have hft : fetchManifestLoop fetch 0 3 =
        ⟨.err ("Failed to fetch package.json: " ++ msg), 1, []⟩ := by
      simp [fetchManifestLoop, h0]
    have hne : ("Failed to fetch package.json: " ++ msg) ≠ "" :=
      append_left_ne_empty _ _ (by decide)
    simp [healthWorkflow, scanRepo, healthToolExecute, hm, hft,
      explainVulnerabilities, jsTruthy, jsOrString, hne]

/-- C3 witness: the short-circuit theorem at a concrete nonempty error
and at a concrete 404 fetch environment. -/
theorem c3_error_short_circuit_witness :
    explainVulnerabilities ⟨[], some "boom"⟩ =
      .errorReport ("Error occurred: " ++ "boom" ++
        ". Please verify the repository URL or ensure package.json exists.") ∧
    healthWorkflow (fun _ => .failure (some 404) "Request failed with status code 404")
        (fun _ _ _ => .success []) "https://github.com/acme/demo" =
      .errorReport ("Error occurred: " ++
        ("Failed to fetch package.json: " ++ "Request failed with status code 404") ++
        ". Please verify the repository URL or ensure package.json exists.") :=
  ⟨c3_error_short_circuit.1 [] "boom" (by decide),
   c3_error_short_circuit.2 _ _ "Request failed with status code 404" rfl⟩

/-- C5: when the merged dependency map has more than 10 entries, the
dependencies queried against OSV are exactly the first 10 entries of the
map in iteration order (each under its normalized version), and there
are exactly 10 of them. -/
theorem c5_cap_first_ten :
    ∀ (fetch : Nat → FetchResp) (osv : String → String → Nat → OsvResp)
      (m : Manifest),
      fetch 0 = .success (some m) →
      10 < (jsSpread m.dependencies m.devDependencies).length →
      ((healthToolExecute fetch osv "https://github.com/acme/demo").queried.map
          (fun q => (q.1, q.2.1)) =
        ((jsSpread m.dependencies m.devDependencies).take 10).map
          (fun p => (p.1, normalizeVersion p.2))) ∧
      ((jsSpread m.dependencies m.devDependencies).take 10).length = 10 := by
  intro fetch osv m h0 hlen
  have hft : fetchManifestLoop fetch 0 3 = ⟨.ok m, 1, []⟩ := by
    simp [fetchManifestLoop, h0]
  have hm : findGitHubMatch
      (adjustSlash (sanitizeInput "https://github.com/acme/demo")).data =
      some ("acme", "demo", none) := by decide
  have hnil : jsSpread m.dependencies m.devDependencies ≠ [] := by
    intro h
    rw [h] at hlen
    simp at hlen
  constructor
  · simp [healthToolExecute, hm, hft, hnil, scanDeps_queried, List.map_map]
    rfl
  · rw [List.length_take]
    omega

/-- C5 witness: an 11-entry manifest is truncated to its first 10
entries. -/
theorem c5_cap_first_ten_witness :
    (healthToolExecute
        (fun _ => .success (some ⟨[("p1", "^1.0"), ("p2", "1.1"), ("p3", "~2.0"),
          ("p4", "3.0"), ("p5", "^4.2"), ("p6", "0.1"), ("p7", "~5.5"),
          ("p8", "6.0"), ("p9", "^7.1"), ("p10", "8.0"), ("p11", "~9.9")], []⟩))
        (fun _ _ _ => .success []) "https://github.com/acme/demo").queried.map
        (fun q => (q.1, q.2.1)) =
      ((jsSpread [("p1", "^1.0"), ("p2", "1.1"), ("p3", "~2.0"),
          ("p4", "3.0"), ("p5", "^4.2"), ("p6", "0.1"), ("p7", "~5.5"),
          ("p8", "6.0"), ("p9", "^7.1"), ("p10", "8.0"), ("p11", "~9.9")] []).take 10).map
        (fun p => (p.1, normalizeVersion p.2)) :=
  (c5_cap_first_ten _ _ _ rfl (by decide)).1

/-- C6 counterexample: a first match whose summary field is present but
empty yields the fallback placeholder, not the (empty) summary text, so
the finding's summary does not equal the first match's summary even
though that match has one. -/
theorem c6_match_summary_counterexample :
    (Vuln.mk "CVE-2024-0001" (some "")).summary.isSome = true ∧
    osvLookup (fun _ => .success [⟨"CVE-2024-0001", some ""⟩]) "p" "1.0.0" 0 3 =
      ⟨some ⟨"p", "1.0.0", ["CVE-2024-0001"], "No summary"⟩, 1⟩ ∧
    "No summary" ≠ "" :=
  ⟨rfl, rfl, by decide⟩

/-- C6 (amended): a dependency whose OSV response has one or more matches
produces exactly one finding, on the first attempt, whose identifier list
is the full ordered list of match ids and whose summary is the first
match's summary when present and nonempty, the fallback placeholder when
absent or empty; a response with zero matches produces no finding. -/
theorem c6_finding_shape :
    (∀ (resp : Nat → OsvResp) (pkg ver : String) (v : Vuln) (vs : List Vuln),
      resp 0 = .success (v :: vs) →
      osvLookup resp pkg ver 0 3 =
        ⟨some ⟨pkg, ver, (v :: vs).map (fun x => x.id),
          jsOrString v.summary "No summary"⟩, 1⟩) ∧
    (∀ (resp : Nat → OsvResp) (pkg ver : String),
      resp 0 = .success [] → osvLookup resp pkg ver 0 3 = ⟨none, 1⟩) ∧
    (∀ t : String, t ≠ "" → jsOrString (some t) "No summary" = t) ∧
    jsOrString none "No summary" = "No summary" ∧
    jsOrString (some "") "No summary" = "No summary" := by
  refine ⟨?_, ?_, ?_, rfl, rfl⟩
  · intro resp pkg ver v vs h0
    simp [osvLookup, h0, headSummary]
  · intro resp pkg ver h0
    simp [osvLookup, h0]
  · intro t ht
    simp [jsOrString, ht]

/-- C6 witness: the finding-shape theorem at a two-match response and at
an empty response. -/
theorem c6_finding_shape_witness :
    osvLookup (fun _ => .success [⟨"CVE-1", some "RCE"⟩, ⟨"CVE-2", none⟩])
        "p" "1.0" 0 3 =
      ⟨some ⟨"p", "1.0", ["CVE-1", "CVE-2"], jsOrString (some "RCE") "No summary"⟩, 1⟩ ∧
    osvLookup (fun _ => .success []) "q" "2.0" 0 3 = ⟨none, 1⟩ ∧
    jsOrString (some "RCE") "No summary" = "RCE" :=
  ⟨c6_finding_shape.1 _ "p" "1.0" ⟨"CVE-1", some "RCE"⟩ [⟨"CVE-2", none⟩] rfl,
   c6_finding_shape.2.1 _ "q" "2.0" rfl,
   c6_finding_shape.2.2.1 "RCE" (by decide)⟩

/-- Length of the query log equals the number of dependencies
processed. -/
theorem scanDeps_queried_length (osv : String → String → Nat → OsvResp)
    (l : List (String × String)) :
    (scanDeps osv l).queried.length = l.length := by
  rw [scanDeps_queried]
  simp

/-- The spec's wording for version normalization, used only for the
refinement comparison of claim C7: strip the leading range markers
(caret and tilde characters) from the front of the declared version. -/
def stripLeadingRangeMarkers (v : String) : String :=
  (v.toList.dropWhile (fun c => c == '^' || c == '~')).asString

/-- C7 counterexample: for the declared version "1.0^" the code removes
the non-leading caret and queries "1.0", while the claim's
leading-marker stripping would leave "1.0^" unchanged. -/
theorem c7_normalize_counterexample :
    normalizeVersion "1.0^" = "1.0" ∧
    stripLeadingRangeMarkers "1.0^" = "1.0^" ∧
    (scanDeps (fun _ _ _ => .success []) [("p", "1.0^")]).queried =
      [("p", "1.0", 1)] ∧
    normalizeVersion "1.0^" ≠ stripLeadingRangeMarkers "1.0^" :=
  ⟨rfl, rfl, rfl, by decide⟩

/-- C7 (amended): every OSV query uses the declared version string with
the first occurrence of "^" and the first occurrence of "~" removed,
wherever they occur; on "^2.1.0" and "~1.0.3" this strips the leading
marker as the claim's examples state. -/
theorem c7_normalized_version_used :
    normalizeVersion "^2.1.0" = "2.1.0" ∧
    normalizeVersion "~1.0.3" = "1.0.3" ∧
    (∀ (osv : String → String → Nat → OsvResp) (l : List (String × String)),
      (scanDeps osv l).queried.map (fun q => q.2.1) =
        l.map (fun p => normalizeVersion p.2)) := by
  refine ⟨rfl, rfl, ?_⟩
  intro osv l
  rw [scanDeps_queried, List.map_map]
  rfl

/-- C8: a 429 answered by a success on the next attempt stops after 2
attempts; the loop never makes more than its fuel in attempts (3 per
dependency, i.e. at most 2 retries); two 429s followed by any third
failure end the dependency after exactly 3 attempts with no finding; and
a non-429 failure ends only that dependency's lookup after 1 attempt,
the batch continuing with the remaining dependencies and the failed
entry absent from the findings. -/
theorem c8_osv_retry_policy :
    (∀ (resp : Nat → OsvResp) (pkg ver m0 : String) (vulns : List Vuln),
      resp 0 = .failure (some 429) m0 → resp 1 = .success vulns →
      (osvLookup resp pkg ver 0 3).attempts = 2) ∧
    (∀ (resp : Nat → OsvResp) (pkg ver : String) (a r : Nat),
      (osvLookup resp pkg ver a r).attempts ≤ a + r) ∧
    (∀ (resp : Nat → OsvResp) (pkg ver m0 m1 m2 : String) (s2 : Option Nat),
      resp 0 = .failure (some 429) m0 → resp 1 = .failure (some 429) m1 →
      resp 2 = .failure s2 m2 →
      osvLookup resp pkg ver 0 3 = ⟨none, 3⟩) ∧
    (∀ (osv : String → String → Nat → OsvResp) (pkg vraw : String)
      (rest : List (String × String)) (st : Option Nat) (m : String),
      osv pkg (normalizeVersion vraw) 0 = .failure st m → st ≠ some 429 →
      (scanDeps osv ((pkg, vraw) :: rest)).findings =
        (scanDeps osv rest).findings ∧
      (scanDeps osv ((pkg, vraw) :: rest)).queried =
        (pkg, normalizeVersion vraw, 1) :: (scanDeps osv rest).queried) := by
  refine ⟨?_, ?_, ?_, ?_⟩
  · intro resp pkg ver m0 vulns h0 h1
    simp only [osvLookup, h0, h1]
    norm_num
    split <;> rfl
  · intro resp pkg ver a r
    induction r generalizing a with
    | zero => simp [osvLookup]
    | succ n ih =>
      simp only [osvLookup]
      cases resp a with
      | success vulns =>
        by_cases hv : 0 < vulns.length <;> simp only [if_pos, if_neg, hv] <;>
          simp
      | failure st m =>
        by_cases hc : st = some 429 ∧ 0 < n
        · simp only [if_pos hc]
          have := ih (a + 1)
          omega
        · simp only [if_neg hc]
          simp
  · intro resp pkg ver m0 m1 m2 s2 h0 h1 h2
    simp [osvLookup, h0, h1, h2]
  · intro osv pkg vraw rest st m h0 hst
    have hl : osvLookup (osv pkg (normalizeVersion vraw)) pkg
        (normalizeVersion vraw) 0 3 = ⟨none, 1⟩ := by
      simp [osvLookup, h0, hst]
    constructor <;> simp [scanDeps, hl]

/-- C8 witness: the retry-policy theorem at a
429-then-success environment, an all-429 environment, and a batch whose
first dependency fails with a 500. -/
theorem c8_osv_retry_policy_witness :
    (osvLookup (fun n => if n = 0 then .failure (some 429) "rate"
        else .success [⟨"CVE-1", some "bad"⟩]) "p" "1.0" 0 3).attempts = 2 ∧
    osvLookup (fun _ => .failure (some 429) "rate") "q" "2.0" 0 3 = ⟨none, 3⟩ ∧
    (scanDeps (fun pkg _ _ => if pkg = "p" then .failure (some 500) "boom"
        else .success [⟨"CVE-9", none⟩]) [("p", "^1.0"), ("q", "2.0")]).findings =
      (scanDeps (fun pkg _ _ => if pkg = "p" then .failure (some 500) "boom"
        else .success [⟨"CVE-9", none⟩]) [("q", "2.0")]).findings :=
  ⟨c8_osv_retry_policy.1 _ "p" "1.0" "rate" [⟨"CVE-1", some "bad"⟩] rfl rfl,
   c8_osv_retry_policy.2.2.1 _ "q" "2.0" "rate" "rate" "rate" (some 429) rfl rfl rfl,
   (c8_osv_retry_policy.2.2.2 _ "p" "^1.0" [("q", "2.0")] (some 500) "boom"
     rfl (by decide)).1⟩

/-- C9: every execution of the tool returns at most one finding per
dependency queried, and queries at most 10 dependencies. -/
theorem c9_findings_bounded :
    ∀ (fetch : Nat → FetchResp) (osv : String → String → Nat → OsvResp)
      (url : String),
      (healthToolExecute fetch osv url).findings.length ≤
        (healthToolExecute fetch osv url).queried.length ∧
      (healthToolExecute fetch osv url).queried.length ≤ 10 := by
  intro fetch osv url
  simp only [healthToolExecute]
  split
  · constructor <;> simp
  · split
    · constructor <;> simp
    · split
      · constructor <;> simp
      · split
        · constructor <;> simp
        · constructor
          · rw [scanDeps_queried_length]
            exact scanDeps_findings_le _ _
          · rw [scanDeps_queried_length, List.length_take]
            omega

/-- C10: the tool's behaviour on a nonempty repository URL is a function
of its sanitized form, so URLs equal after deleting the characters
`< > \x7b \x7d [ ] ;` and a trailing ".3js" behave identically; a URL
containing those characters can still parse as a well-formed GitHub
reference, and a trailing ".3js" is deleted. -/
theorem c10_sanitize_first :
    (∀ (fetch : Nat → FetchResp) (osv : String → String → Nat → OsvResp)
      (u1 u2 : String),
      u1 ≠ "" → u2 ≠ "" → sanitizeInput u1 = sanitizeInput u2 →
      healthToolExecute fetch osv u1 = healthToolExecute fetch osv u2) ∧
    sanitizeInput "https://github.com/\x7bacme\x7d/[demo];<>" =
      "https://github.com/acme/demo" ∧
    (healthToolExecute (fun _ => .failure none "net") (fun _ _ _ => .success [])
        "https://github.com/\x7bacme\x7d/[demo];<>").repoRef =
      some ("acme", "demo", "main") ∧
    sanitizeInput "https://github.com/acme/demo.3js" =
      "https://github.com/acme/demo" := by
  refine ⟨?_, rfl, rfl, rfl⟩
  intro fetch osv u1 u2 h1 h2 hs
  simp only [healthToolExecute, if_neg h1, if_neg h2, hs]

/-- C10 witness: two URLs that sanitize to the same string produce the
same execution result. -/
theorem c10_sanitize_first_witness :
    healthToolExecute (fun _ => .failure none "net") (fun _ _ _ => .success [])
        "https://github.com/acme<>/demo" =
      healthToolExecute (fun _ => .failure none "net") (fun _ _ _ => .success [])
        "https://github.com/acme/demo\x7b\x7d" :=
  c10_sanitize_first.1 _ _ _ _ (by decide) (by decide) (by decide)

end HealthSecure
